import Mathlib

/-!
Shallow embedding of the GrymSynth serving core:
  * src/gama_operations.py  — stdio worker (MockGAMAProcessor + main loop)
  * src/app/api/server.py   — HTTP facade (health, models/load, process/wav2vec2)
  * src/gama_tests/test_scripts/utils/memory.py — MemoryManager

Python floats are modelled as exact rationals (ℚ); the random draws of
numpy (np.random.random / np.random.normal) are modelled as oracle
functions ℕ → ℚ supplied as parameters; wall-clock time values are
oracle parameters as well.  JSON values parsed by json.loads are
modelled by the inductive JVal below.
-/

/-- A JSON value as produced by json.loads (Python dicts keep their key
order; we assume distinct keys, which every input in this development
satisfies). -/
inductive JVal : Type where
  | null : JVal
  | bool : Bool → JVal
  | num  : ℚ → JVal
  | str  : String → JVal
  | arr  : List JVal → JVal
  | obj  : List (String × JVal) → JVal

/-- Python dict.get(k, d) on an association list of parsed JSON fields. -/
def jget (fields : List (String × JVal)) (k : String) (d : JVal) : JVal :=
  match fields.find? (fun p => p.1 == k) with
  | some p => p.2
  | none => d

/-- Field access on a JSON value known to be an object (subscript / .get);
returns null when the value is not an object or the key is absent. -/
def jgetObj (v : JVal) (k : String) : JVal :=
  match v with
  | .obj fields => jget fields k .null
  | _ => .null

/-- Python truthiness of a parsed JSON value (used by `options or \x7b\x7d`
and by `if return_vector:`). -/
def pyTruthy : JVal → Bool
  | .null => false
  | .bool b => b
  | .num q => q != 0
  | .str s => s != ""
  | .arr l => !l.isEmpty
  | .obj l => !l.isEmpty

/-- Python len() on a parsed JSON value: defined for lists, strings and
dicts, raises TypeError otherwise (the exception is the .error case). -/
def pyLen : JVal → Except String Nat
  | .arr l => .ok l.length
  | .str s => .ok s.length
  | .obj l => .ok l.length
  | _ => .error "TypeError: object has no len()"

/-- Python v.get(k, d): works when v is a dict, raises AttributeError
otherwise. -/
def pyDictGet (v : JVal) (k : String) (d : JVal) : Except String JVal :=
  match v with
  | .obj fields => .ok (jget fields k d)
  | _ => .error "AttributeError: object has no attribute get"

/-- Python == between a parsed JSON value and a string literal
(self.device == "cuda"): false whenever the value is not a string. -/
def jeqStr : JVal → String → Bool
  | .str s, t => s == t
  | _, _ => false

/-- Python str() of a parsed JSON value, used only to render diagnostic
message text (nested composite values are abbreviated; no verified
property depends on this rendering). -/
def pyStr : JVal → String
  | .null => "None"
  | .bool true => "True"
  | .bool false => "False"
  | .num q => toString q
  | .str s => s
  | .arr _ => "[...]"
  | .obj _ => "{...}"

/-- State of MockGAMAProcessor (gama_operations.py).  The constructor
stores model_path/device/quantization; device falls back to "cpu" when
CUDA is unavailable. -/
structure MockGAMAProcessor : Type where
  model_path : JVal
  device : JVal
  quantization : JVal
  initialized : Bool

/-- MockGAMAProcessor.__init__(model_path, device, quantization) with the
ambient torch.cuda.is_available() flag. -/
def MockGAMAProcessor.init (cuda : Bool) (model_path device quantization : JVal) :
    MockGAMAProcessor :=
  { model_path := model_path
    device := if cuda then device else .str "cpu"
    quantization := quantization
    initialized := false }

/-- MockGAMAProcessor.ping(). -/
def MockGAMAProcessor.ping (p : MockGAMAProcessor) : JVal :=
  .obj [("status", .str "ok"),
        ("device", p.device),
        ("memory_available",
          .num (if jeqStr p.device "cuda" then 1024 * 1024 * 1024 * 6 else 0))]

/-- Text of the i-th mock segment (0-based): f-string "Word {i+1}". -/
def segText (i : Nat) : String := "Word " ++ toString (i + 1)

/-- The mock segments built by MockGAMAProcessor.process_audio: one per
word, with start/end in seconds at 16 kHz and a randomized confidence
0.8 + 0.2 * np.random.random() supplied by the oracle conf. -/
def mkSegments (n wc : Nat) (conf : Nat → ℚ) : List JVal :=
  let seg := n / wc
  (List.range wc).map (fun i =>
    .obj [("text", .str (segText i)),
          ("start", .num (((i * seg : Nat) : ℚ) / 16000)),
          ("end", .num ((((i + 1) * seg : Nat) : ℚ) / 16000)),
          ("confidence", .num (0.8 + 0.2 * conf i))])

/-- The "text" field of a segment object, as read by the transcription
join s["text"]. -/
def segTextOf (s : JVal) : String :=
  match jgetObj s "text" with
  | .str t => t
  | _ => ""

/-- Result dict of MockGAMAProcessor.process_audio for an audio list of
length n: word_count = max(1, n // 8000), segments as above,
transcription = " ".join(s["text"] for s in segments),
duration = n / 16000. -/
def processAudioResult (conf : Nat → ℚ) (n : Nat) : JVal :=
  let word_count := max 1 (n / 8000)
  let segments := mkSegments n word_count conf
  .obj [("transcription", .str (String.intercalate " " (segments.map segTextOf))),
        ("confidence", .num 0.9),
        ("segments", .arr segments),
        ("duration", .num ((n : ℚ) / 16000)),
        ("word_count", .num (word_count : ℚ)),
        ("processing_time", .num 500),
        ("memory_usage", .obj [("peak", .num (1024 * 1024 * 100)),
                               ("current", .num (1024 * 1024 * 50))])]

/-- MockGAMAProcessor.process_audio(audio_data, options): lazily
initializes, then computes the mock transcription from
len(audio_data); len raises TypeError on a non-sized value (the
exception surfaces as the .error case, after the initialization
side effect).  options is never read after `options = options or \x7b\x7d`. -/
def MockGAMAProcessor.process_audio (p : MockGAMAProcessor) (conf : Nat → ℚ)
    (audio_data _options : JVal) : MockGAMAProcessor × Except String JVal :=
  let p := { p with initialized := true }
  match pyLen audio_data with
  | .error e => (p, .error e)
  | .ok n => (p, .ok (processAudioResult conf n))

/-- MockGAMAProcessor.extract_features(audio_data, options): the
randomized feature values come from the oracle randf. -/
def MockGAMAProcessor.extract_features (p : MockGAMAProcessor) (randf : Nat → ℚ)
    (audio_data options : JVal) : MockGAMAProcessor × Except String JVal :=
  let p := { p with initialized := true }
  let options := if pyTruthy options then options else .obj []
  match pyDictGet options "return_vector" (.bool false) with
  | .error e => (p, .error e)
  | .ok rv =>
    if pyTruthy rv then
      (p, .ok (.obj [("feature_vector", .arr ((List.range 768).map (fun i => .num (randf i)))),
                     ("processing_time", .num 300),
                     ("memory_usage", .obj [("peak", .num (1024 * 1024 * 80)),
                                            ("current", .num (1024 * 1024 * 40))])]))
    else
      match pyLen audio_data with
      | .error e => (p, .error e)
      | .ok n =>
        let num_frames := max 1 (n / 320)
        (p, .ok (.obj [("features", .arr ((List.range num_frames).map (fun i =>
                          .arr ((List.range 768).map (fun j => .num (randf (i * 768 + j))))))),
                       ("metadata", .obj [("type", .str "gama_features"),
                                          ("dimensions", .arr [.num (num_frames : ℚ), .num 768]),
                                          ("sample_rate", .num 16000),
                                          ("time_steps", .num (num_frames : ℚ))]),
                       ("processing_time", .num 300),
                       ("memory_usage", .obj [("peak", .num (1024 * 1024 * 80)),
                                              ("current", .num (1024 * 1024 * 40))])]))

/-- The worker's startup configuration: CUDA availability and the three
environment-derived defaults (GAMA_MODEL_PATH, GAMA_DEVICE,
GAMA_QUANTIZATION, each with its documented fallback). -/
structure WorkerEnv : Type where
  cuda : Bool
  model_path : String
  device : String
  quantization : String

/-- One line of standard input: either text json.loads rejects, or the
parsed JSON value. -/
inductive LineInput : Type where
  | invalid (raw : String)
  | parsed (v : JVal)

/-- A response object written to stdout: json.dumps of
\x7b"id": id, "result": result, "error": error\x7d where exactly the None
fields serialize as null. -/
structure RpcResponse : Type where
  id : JVal
  result : Option JVal
  error : Option String

/-- Outcome of the dispatch section of the main loop for one request:
the (possibly replaced) processor, the result/error variables after the
inner try/except, whether the shutdown break was reached, and the
stderr lines printed during dispatch. -/
structure DispatchOut : Type where
  p : MockGAMAProcessor
  result : Option JVal
  error : Option String
  isShutdown : Bool
  log : List String

/-- The dispatch `if operation == ...` chain of main() with its inner
try/except: each arm either sets result, or an exception/unknown
operation sets error.  Exceptions raised while evaluating the nested
data.get(...) argument expressions are raised inside the same try and
are likewise converted to the error variable. -/
def dispatchStep (env : WorkerEnv) (conf randf : Nat → ℚ) (p : MockGAMAProcessor)
    (operation data : JVal) : DispatchOut :=
  match operation with
  | .str "ping" => ⟨p, some p.ping, none, false, []⟩
  | .str "process_audio" =>
    match pyDictGet data "audio" (.obj []) with
    | .error e => ⟨p, none, some e, false, ["Error processing request: " ++ e]⟩
    | .ok audio =>
      match pyDictGet audio "data" (.arr []) with
      | .error e => ⟨p, none, some e, false, ["Error processing request: " ++ e]⟩
      | .ok adata =>
        match pyDictGet data "options" .null with
        | .error e => ⟨p, none, some e, false, ["Error processing request: " ++ e]⟩
        | .ok opts =>
          match p.process_audio conf adata opts with
          | (p2, .ok r) => ⟨p2, some r, none, false, []⟩
          | (p2, .error e) => ⟨p2, none, some e, false, ["Error processing request: " ++ e]⟩
  | .str "extract_features" =>
    match pyDictGet data "audio" (.obj []) with
    | .error e => ⟨p, none, some e, false, ["Error processing request: " ++ e]⟩
    | .ok audio =>
      match pyDictGet audio "data" (.arr []) with
      | .error e => ⟨p, none, some e, false, ["Error processing request: " ++ e]⟩
      | .ok adata =>
        match pyDictGet data "options" .null with
        | .error e => ⟨p, none, some e, false, ["Error processing request: " ++ e]⟩
        | .ok opts =>
          match p.extract_features randf adata opts with
          | (p2, .ok r) => ⟨p2, some r, none, false, []⟩
          | (p2, .error e) => ⟨p2, none, some e, false, ["Error processing request: " ++ e]⟩
  | .str "load_model" =>
    match pyDictGet data "model_path" (.str env.model_path) with
    | .error e => ⟨p, none, some e, false, ["Error processing request: " ++ e]⟩
    | .ok mp =>
      match pyDictGet data "options" (.obj []) with
      | .error e => ⟨p, none, some e, false, ["Error processing request: " ++ e]⟩
      | .ok opts =>
        match pyDictGet opts "device" (.str env.device) with
        | .error e => ⟨p, none, some e, false, ["Error processing request: " ++ e]⟩
        | .ok dev =>
          match pyDictGet opts "quantization" (.str env.quantization) with
          | .error e => ⟨p, none, some e, false, ["Error processing request: " ++ e]⟩
          | .ok qt =>
            let p2 := MockGAMAProcessor.init env.cuda mp dev qt
            ⟨{ p2 with initialized := true }, some (.obj [("status", .str "ok")]),
             none, false, []⟩
  | .str "shutdown" =>
    ⟨p, some (.obj [("status", .str "shutdown")]), none, true,
     ["Shutting down GAMA operations service"]⟩
  | op => ⟨p, none, some ("Unknown operation: " ++ pyStr op), false, []⟩

/-- How the `for line in sys.stdin` loop of main() ended. -/
inductive LoopExit : Type where
  | eof : LoopExit
  | shutdown : LoopExit
  | crash (e : String) : LoopExit

/-- Accumulated effect of running main()'s read loop on a list of input
lines. -/
structure LoopResult : Type where
  p : MockGAMAProcessor
  stdout : List RpcResponse
  stderr : List String
  exit : LoopExit

/-- main()'s read loop.  For each line: json.loads failure is caught by
the JSONDecodeError handler (stderr diagnostic, no response, continue);
on a parsed dict the id/operation/data fields are extracted, dispatch
runs, and the \x7bid, result, error\x7d response is written — except that
the shutdown branch breaks out of the loop before the response-writing
statements, so no acknowledgement line is emitted; on a parsed
non-dict value request.get("id") raises AttributeError, which no
handler catches, so the exception escapes the loop and the worker
terminates. -/
def runLoop (env : WorkerEnv) (conf randf : Nat → ℚ) :
    MockGAMAProcessor → List LineInput → LoopResult
  | p, [] => ⟨p, [], [], .eof⟩
  | p, .invalid raw :: rest =>
    let r := runLoop env conf randf p rest
    ⟨r.p, r.stdout, ("Invalid JSON: " ++ raw) :: r.stderr, r.exit⟩
  | p, .parsed (.obj fields) :: rest =>
    let reqId := jget fields "id" .null
    let operation := jget fields "operation" .null
    let data := jget fields "data" (.obj [])
    let d := dispatchStep env conf randf p operation data
    if d.isShutdown then
      ⟨d.p, [], d.log, .shutdown⟩
    else
      let r := runLoop env conf randf d.p rest
      ⟨r.p, ⟨reqId, d.result, d.error⟩ :: r.stdout, d.log ++ r.stderr, r.exit⟩
  | p, .parsed _ :: _ =>
    ⟨p, [], [], .crash "AttributeError: object has no attribute get"⟩

/-!  src/app/api/server.py  -/

/-- The CUDA allocator counters read by the health endpoint:
torch.cuda.memory_allocated() and torch.cuda.max_memory_allocated(),
in bytes. -/
structure GpuMem : Type where
  allocated : Nat
  maxAllocated : Nat

/-- Response of GET /health (HealthStatus pydantic model).  memory_usage
is a Python float, modelled as ℚ. -/
structure HealthStatus : Type where
  status : String
  models : List String
  gpu_available : Bool
  memory_usage : ℚ

/-- health_check(): gpu is the device state (none when
torch.cuda.is_available() is false); loaded is the key list of the
loaded_models cache.  memory_usage divides allocated by peak only when
the peak is positive. -/
def health_check (gpu : Option GpuMem) (loaded : List String) : HealthStatus :=
  { status := "ok"
    models := loaded
    gpu_available := gpu.isSome
    memory_usage :=
      match gpu with
      | none => 0
      | some g => if g.maxAllocated > 0 then (g.allocated : ℚ) / (g.maxAllocated : ℚ) else 0 }

/-- Observable server state for the model-load endpoint: the key set of
the loaded_models cache, plus a log of the background load tasks that
have been scheduled via background_tasks.add_task (one entry per
scheduled backend load, in order). -/
structure ApiState : Type where
  loaded : List String
  startedLoads : List String

/-- POST /models/load: returns (new state, success flag, message).  The
endpoint checks only the loaded_models cache — an entry appears there
when load_model_task finishes, not when it is scheduled — so the
in-cache test is the sole deduplication. -/
def load_model (s : ApiState) (name : String) : ApiState × Bool × String :=
  if name ∈ s.loaded then
    (s, true, "Model " ++ name ++ " already loaded")
  else
    ({ s with startedLoads := s.startedLoads ++ [name] }, true,
     "Model " ++ name ++ " loading started")

/-- load_model_task completing for name: on success the entry is stored
in loaded_models (dict assignment — the key set gains name); on failure
the exception is only logged and the cache is unchanged. -/
def load_model_task (s : ApiState) (name : String) (success : Bool) : ApiState :=
  if success then
    { s with loaded := if name ∈ s.loaded then s.loaded else s.loaded ++ [name] }
  else s

/-- Outcome of POST /process/wav2vec2: either the 200 payload
(features + metadata) or an HTTPException with its status code and
detail text. -/
inductive HttpOut : Type where
  | ok (features : List ℚ) (metadata : List (String × JVal)) : HttpOut
  | err (status : Nat) (detail : String) : HttpOut

/-- Status code of an HTTP outcome, none on success. -/
def HttpOut.statusOf : HttpOut → Option Nat
  | .ok _ _ => none
  | .err s _ => some s

/-- process_audio endpoint (POST /process/wav2vec2).

Parameters of the embedding: loaded — key list of loaded_models;
defaultLoadOk — whether the inline load_model_task call for the default
model succeeds (on failure the task only logs); infer — outcome of the
delegated processor/model inference (features and their shape);
now — value of time.time(); options — the request's options dict.

The body mirrors the endpoint's single try/except Exception block:
  * model_name = options.get("model", "wav2vec2-base");
  * if it is not a key of loaded_models: for the default name the
    endpoint runs load_model_task inline — and only on this branch does
    `import time` execute, binding the function-local name time — and
    sleeps; for any other name it raises HTTPException(400, ...), which
    the enclosing except Exception handler catches and re-raises as
    HTTPException(500, str(e));
  * loaded_models[model_name] raises KeyError if still absent (default
    load failed) — caught, re-raised as 500;
  * inference failures are caught and re-raised as 500;
  * the response metadata evaluates time.time(): when the default-load
    branch did not run, the local name time is unbound, so this raises
    UnboundLocalError — caught, re-raised as 500. -/
def process_audio_ep (loaded : List String) (defaultLoadOk : Bool)
    (infer : Except String (List ℚ × List Nat)) (now : ℚ)
    (options : List (String × JVal)) : HttpOut :=
  let model_name := jget options "model" (.str "wav2vec2-base")
  let inCache : Bool := match model_name with
    | .str s => loaded.contains s
    | _ => false
  -- the default-load branch both extends the cache (on success) and
  -- binds the function-local name time
  let branch : Except String (List String × Bool) :=
    if inCache then .ok (loaded, false)
    else if jeqStr model_name "wav2vec2-base" then
      .ok (if defaultLoadOk then
             (if loaded.contains "wav2vec2-base" then loaded else loaded ++ ["wav2vec2-base"])
           else loaded, true)
    else
      .error ("400: Model " ++ pyStr model_name ++ " not loaded. Please load it first.")
  match branch with
  | .error e => .err 500 e
  | .ok (loaded2, timeBound) =>
    let present : Bool := match model_name with
      | .str s => loaded2.contains s
      | _ => false
    if ¬ present then
      .err 500 ("KeyError: " ++ pyStr model_name)
    else
      match infer with
      | .error e => .err 500 e
      | .ok (features, shape) =>
        if ¬ timeBound then
          .err 500 "UnboundLocalError: local variable time referenced before assignment"
        else
          .ok features
            [("model", model_name),
             ("shape", .arr (shape.map (fun d => .num (d : ℚ)))),
             ("timestamp", .num now)]

/-!  src/gama_tests/test_scripts/utils/memory.py  -/

/-- MemoryStats dataclass: all values in GB (Python floats, modelled as
ℚ). -/
structure MemoryStats : Type where
  gpu_allocated : ℚ
  gpu_cached : ℚ
  gpu_max_allocated : ℚ
  gpu_total : ℚ
  ram_used : ℚ
  ram_available : ℚ
  ram_total : ℚ

/-- Python int() applied to a float: truncation toward zero. -/
def ratTrunc (q : ℚ) : ℤ := if 0 ≤ q then ⌊q⌋ else ⌈q⌉

/-- MemoryManager.get_optimal_batch_size(sample_batch_memory,
target_memory): target_gpu_memory is the manager's configured target
(constructor default 5.5), stats the snapshot read by
get_memory_stats().  Float division by zero raises ZeroDivisionError in
Python, the none case here. -/
def get_optimal_batch_size (target_gpu_memory : ℚ) (stats : MemoryStats)
    (sample_batch_memory : ℚ) (target_memory : Option ℚ) : Option ℤ :=
  let tm := target_memory.getD target_gpu_memory
  let available_memory := min (stats.gpu_total - stats.gpu_allocated) tm
  if sample_batch_memory = 0 then none
  else some (max 1 (ratTrunc (available_memory * 0.8 / sample_batch_memory)))

/-- The configuration dict built by MemoryManager.optimize_model_config:
the three low-memory keys are present only when gpu_total < 8 (Option
none = key absent); max_memory is the GB value computed for device 0
(its f-string rendering to one decimal place is presentation only). -/
structure OptimizedConfig : Type where
  torch_dtype : String
  device_map : String
  load_in_8bit : Option Bool
  use_cache : Option Bool
  gradient_checkpointing : Option Bool
  max_memory : ℚ

/-- MemoryManager.optimize_model_config() as a function of the snapshot
it reads and the manager's target_gpu_memory. -/
def optimize_model_config (target_gpu_memory : ℚ) (stats : MemoryStats) :
    OptimizedConfig :=
  let low := stats.gpu_total < 8
  { torch_dtype := "float16"
    device_map := "auto"
    load_in_8bit := if low then some true else none
    use_cache := if low then some false else none
    gradient_checkpointing := if low then some true else none
    max_memory := min (stats.gpu_total - 0.5) target_gpu_memory }

/-!  Theorems  -/

/-- Python int() truncation and mathematical floor agree once clamped
from below by 1 (they differ only on negative non-integers, where both
sides clamp to 1). -/
theorem max_one_ratTrunc (q : ℚ) : max 1 (ratTrunc q) = max 1 ⌊q⌋ := by
  unfold ratTrunc
  by_cases h : 0 ≤ q
  · simp [h]
  · push_neg at h
    have hc : (⌈q⌉ : ℤ) ≤ 0 := Int.ceil_le.mpr (by exact_mod_cast h.le)
    have hf : (⌊q⌋ : ℤ) ≤ 0 := le_trans (Int.floor_le_ceil q) hc
    rw [if_neg (not_le.mpr h), max_eq_left (by omega), max_eq_left (by omega)]

/-- Claim C5: get_optimal_batch_size returns
max(1, floor(0.8 × availableMemory / perSampleMemoryEstimate)) — in
particular a value that is never below 1 — for every combination of
memory values (zero or negative available memory included), whenever
the per-sample estimate is nonzero (a zero estimate raises
ZeroDivisionError in Python and returns no value at all). -/
theorem get_optimal_batch_size_spec (tg : ℚ) (stats : MemoryStats)
    (sample : ℚ) (tmArg : Option ℚ) :
    (sample ≠ 0 → (get_optimal_batch_size tg stats sample tmArg).isSome) ∧
    ∀ b, get_optimal_batch_size tg stats sample tmArg = some b →
      1 ≤ b ∧
      b = max 1 ⌊0.8 * min (stats.gpu_total - stats.gpu_allocated) (tmArg.getD tg) / sample⌋ := by
  constructor
  · intro hs
    simp [get_optimal_batch_size, hs]
  · intro b hb
    by_cases hs : sample = 0
    · simp [get_optimal_batch_size, hs] at hb
    · simp only [get_optimal_batch_size, if_neg hs, Option.some.injEq] at hb
      subst hb
      refine ⟨le_max_left _ _, ?_⟩
      rw [max_one_ratTrunc, mul_comm]

/-- Witness for C5 at a concrete snapshot: total 10 GB, 2 GB allocated,
target 5.5 GB, 1 GB per sample gives batch size 4 = max(1, floor(4.4)). -/
theorem get_optimal_batch_size_spec_witness :
    ((1 : ℚ) ≠ 0) ∧
    (get_optimal_batch_size 5.5 ⟨2, 0, 0, 10, 0, 0, 0⟩ 1 none).isSome ∧
    (get_optimal_batch_size 5.5 ⟨2, 0, 0, 10, 0, 0, 0⟩ 1 none = some 4 →
      (1 : ℤ) ≤ 4 ∧
      (4 : ℤ) = max 1 ⌊(0.8 : ℚ) * min ((10 : ℚ) - 2) ((none : Option ℚ).getD 5.5) / 1⌋) ∧
    get_optimal_batch_size 5.5 ⟨2, 0, 0, 10, 0, 0, 0⟩ 1 none = some 4 :=
  ⟨by norm_num,
   (get_optimal_batch_size_spec 5.5 ⟨2, 0, 0, 10, 0, 0, 0⟩ 1 none).1 (by norm_num),
   (get_optimal_batch_size_spec 5.5 ⟨2, 0, 0, 10, 0, 0, 0⟩ 1 none).2 4,
   by norm_num [get_optimal_batch_size, ratTrunc]⟩

/-- Claim C8: optimize_model_config sets the memory ceiling to
min(total − 0.5 GB, target budget) and, when total device capacity is
below 8 GB, enables 8-bit loading and disables result caching; the
output is a function of the snapshot and the target budget alone. -/
theorem optimize_model_config_spec (tg : ℚ) (stats : MemoryStats) :
    (optimize_model_config tg stats).max_memory = min (stats.gpu_total - 0.5) tg ∧
    (stats.gpu_total < 8 →
      (optimize_model_config tg stats).load_in_8bit = some true ∧
      (optimize_model_config tg stats).use_cache = some false) := by
  refine ⟨rfl, fun h => ?_⟩
  simp [optimize_model_config, h]

/-- Witness for C8 at a concrete 4 GB (low-memory) snapshot and the
default 5.5 GB target. -/
theorem optimize_model_config_spec_witness :
    (optimize_model_config 5.5 ⟨0, 0, 0, 4, 0, 0, 0⟩).max_memory =
      min ((4 : ℚ) - 0.5) 5.5 ∧
    (optimize_model_config 5.5 ⟨0, 0, 0, 4, 0, 0, 0⟩).load_in_8bit = some true ∧
    (optimize_model_config 5.5 ⟨0, 0, 0, 4, 0, 0, 0⟩).use_cache = some false :=
  ⟨(optimize_model_config_spec 5.5 ⟨0, 0, 0, 4, 0, 0, 0⟩).1,
   (optimize_model_config_spec 5.5 ⟨0, 0, 0, 4, 0, 0, 0⟩).2 (by norm_num)⟩

/-- Claim C6: the health endpoint's memory_usage is 0 when no device is
present or when the recorded peak is 0 (the division is guarded by the
peak > 0 test), and lies in [0,1] otherwise — allocated never exceeds
the peak, since the CUDA peak counter is the running maximum of the
allocated counter. -/
theorem health_memory_usage_bounds (gpu : Option GpuMem) (loaded : List String) :
    (gpu = none → (health_check gpu loaded).memory_usage = 0) ∧
    (∀ g, gpu = some g → g.maxAllocated = 0 →
      (health_check gpu loaded).memory_usage = 0) ∧
    (∀ g, gpu = some g → g.allocated ≤ g.maxAllocated →
      0 ≤ (health_check gpu loaded).memory_usage ∧
      (health_check gpu loaded).memory_usage ≤ 1) := by
  refine ⟨fun h => ?_, fun g hg h0 => ?_, fun g hg hle => ?_⟩
  · subst h; rfl
  · subst hg; simp [health_check, h0]
  · subst hg
    by_cases h0 : g.maxAllocated = 0
    · simp [health_check, h0]
    · have hpos : (0 : ℚ) < (g.maxAllocated : ℚ) := by positivity
      constructor
      · simp only [health_check]
        rw [if_pos (Nat.pos_of_ne_zero h0)]
        positivity
      · simp only [health_check]
        rw [if_pos (Nat.pos_of_ne_zero h0)]
        rw [div_le_one hpos]
        exact_mod_cast hle

/-- Witness for C6: no device gives 0, a 0-byte peak gives 0, and 50
allocated of a 100-byte peak gives a utilization in [0,1]. -/
theorem health_memory_usage_bounds_witness :
    ((health_check none []).memory_usage = 0) ∧
    ((health_check (some ⟨7, 0⟩) []).memory_usage = 0) ∧
    (0 ≤ (health_check (some ⟨50, 100⟩) []).memory_usage ∧
      (health_check (some ⟨50, 100⟩) []).memory_usage ≤ 1) :=
  ⟨(health_memory_usage_bounds none []).1 rfl,
   (health_memory_usage_bounds (some ⟨7, 0⟩) []).2.1 ⟨7, 0⟩ rfl rfl,
   (health_memory_usage_bounds (some ⟨50, 100⟩) []).2.2 ⟨50, 100⟩ rfl (by norm_num)⟩

/-- Counterexample to claim C1 as stated: starting from an empty cache,
two POST models/load calls for the same name, the second arriving
before the first background task has completed, schedule TWO backend
loads for that name (the started-load log holds "m" twice), and the
second call answers "loading started", not an already-loading
response. -/
theorem load_model_duplicate_inflight_load :
    ((load_model (load_model ⟨[], []⟩ "m").1 "m").1).startedLoads = ["m", "m"] ∧
    ¬ (((load_model (load_model ⟨[], []⟩ "m").1 "m").1).startedLoads.count "m" ≤ 1) ∧
    (load_model (load_model ⟨[], []⟩ "m").1 "m").2.2 = "Model m loading started" := by
  refine ⟨rfl, ?_, rfl⟩
  decide

/-- Claim C1 amended: the load endpoint is idempotent only once a load
has completed — if the name is already a key of loaded_models, a
repeated call returns the already-loaded success response, leaves the
state unchanged, and schedules no new backend load; a second call
arriving while the first load is still in flight does schedule a
second backend load (see the counterexample). -/
theorem load_model_idempotent_after_completion (s : ApiState) (name : String)
    (h : name ∈ s.loaded) :
    load_model s name = (s, true, "Model " ++ name ++ " already loaded") := by
  simp [load_model, h]

/-- Witness for the amended C1: with "m" loaded (after its task
completed), a repeated load returns already-loaded and starts nothing
new. -/
theorem load_model_idempotent_after_completion_witness :
    "m" ∈ (load_model_task ⟨[], ["m"]⟩ "m" true).loaded ∧
    load_model (load_model_task ⟨[], ["m"]⟩ "m" true) "m" =
      (load_model_task ⟨[], ["m"]⟩ "m" true, true, "Model " ++ "m" ++ " already loaded") :=
  ⟨by decide,
   load_model_idempotent_after_completion (load_model_task ⟨[], ["m"]⟩ "m" true) "m"
     (by decide)⟩

/-- Claim C2 at its failing input (code bug): for the well-formed
shutdown request with id 1, the worker terminates its read loop — later
lines get no response — but emits NO response line at all: the break in
the shutdown branch exits the loop before the response-writing
statements, so the acknowledgement that the branch builds is never
written. -/
theorem shutdown_emits_no_ack :
    (runLoop ⟨false, "facebook/gama-7b", "cpu", "8bit"⟩ (fun _ => 0) (fun _ => 0)
        (MockGAMAProcessor.init false (.str "facebook/gama-7b") (.str "cpu") (.str "8bit"))
        [.parsed (.obj [("id", .num 1), ("operation", .str "shutdown")])]).exit =
      .shutdown ∧
    (runLoop ⟨false, "facebook/gama-7b", "cpu", "8bit"⟩ (fun _ => 0) (fun _ => 0)
        (MockGAMAProcessor.init false (.str "facebook/gama-7b") (.str "cpu") (.str "8bit"))
        [.parsed (.obj [("id", .num 1), ("operation", .str "shutdown")])]).stdout = [] ∧
    (runLoop ⟨false, "facebook/gama-7b", "cpu", "8bit"⟩ (fun _ => 0) (fun _ => 0)
        (MockGAMAProcessor.init false (.str "facebook/gama-7b") (.str "cpu") (.str "8bit"))
        [.parsed (.obj [("id", .num 1), ("operation", .str "shutdown")]),
         .parsed (.obj [("id", .num 2), ("operation", .str "ping")])]).stdout = [] :=
  ⟨rfl, rfl, rfl⟩

/-- Claim C3 at its failing input (code bug): the single line "5" is
valid JSON, so the JSONDecodeError handler does not fire, and
request.get("id") on the parsed non-dict value raises AttributeError,
which nothing catches: the read loop terminates (crashes) after
emitting no response — one bad request line does kill the worker. -/
theorem worker_crashes_on_nondict_json_line :
    (runLoop ⟨false, "facebook/gama-7b", "cpu", "8bit"⟩ (fun _ => 0) (fun _ => 0)
        (MockGAMAProcessor.init false (.str "facebook/gama-7b") (.str "cpu") (.str "8bit"))
        [.parsed (.num 5)]).exit =
      .crash "AttributeError: object has no attribute get" ∧
    (runLoop ⟨false, "facebook/gama-7b", "cpu", "8bit"⟩ (fun _ => 0) (fun _ => 0)
        (MockGAMAProcessor.init false (.str "facebook/gama-7b") (.str "cpu") (.str "8bit"))
        [.parsed (.num 5)]).stdout = [] :=
  ⟨rfl, rfl⟩

/-- Claim C7 at its failing input (code bug): a process request naming a
model that is neither loaded nor the default raises
HTTPException(400, ...) inside the endpoint's own try block, the
catch-all except Exception handler swallows it and re-raises
HTTPException(500, str(e)) — the client receives a server error 500,
never the intended client error 400. -/
theorem process_audio_unknown_model_returns_500 :
    process_audio_ep [] true (.ok ([1], [768])) 0 [("model", .str "gama")] =
      .err 500 "400: Model gama not loaded. Please load it first." ∧
    (process_audio_ep [] true (.ok ([1], [768])) 0
        [("model", .str "gama")]).statusOf = some 500 ∧
    (process_audio_ep [] true (.ok ([1], [768])) 0
        [("model", .str "gama")]).statusOf ≠ some 400 :=
  ⟨rfl, rfl, by
    intro h
    rw [show (process_audio_ep [] true (.ok ([1], [768])) 0
        [("model", .str "gama")]).statusOf = some 500 from rfl] at h
    exact absurd (Option.some.inj h) (by norm_num)⟩

/-- Claim C9 at its failing input (code bug): when the requested model is
already loaded (here the default name, already a key of
loaded_models), the default-load branch — the only place the
function-local `import time` executes — is skipped, so building the
response metadata raises UnboundLocalError at time.time(); the
catch-all converts it to a 500 error.  The success payload is never
returned on the already-loaded path, even though the backend inference
succeeded. -/
theorem process_audio_loaded_model_unbound_time :
    process_audio_ep ["wav2vec2-base"] true (.ok ([1], [768])) 0 [] =
      .err 500 "UnboundLocalError: local variable time referenced before assignment" ∧
    process_audio_ep ["wav2vec2-base"] true (.ok ([1], [768])) 0
        [("model", .str "wav2vec2-base")] =
      .err 500 "UnboundLocalError: local variable time referenced before assignment" :=
  ⟨rfl, rfl⟩

/-- Claim C10: for an audio list of length n, the mock process_audio
result has word_count = max(1, n // 8000), exactly word_count segment
entries, duration = n / 16000, and transcription equal to the
space-join of the segments' text fields in order — whatever the random
confidence draws are, so these structural fields depend only on n. -/
theorem mock_process_audio_structure (p : MockGAMAProcessor) (conf : Nat → ℚ)
    (audio : List JVal) (opts : JVal) :
    (MockGAMAProcessor.process_audio p conf (.arr audio) opts).2 =
      .ok (processAudioResult conf audio.length) ∧
    ∃ segs : List JVal,
      jgetObj (processAudioResult conf audio.length) "segments" = .arr segs ∧
      segs.length = max 1 (audio.length / 8000) ∧
      jgetObj (processAudioResult conf audio.length) "word_count" =
        .num ((max 1 (audio.length / 8000) : Nat) : ℚ) ∧
      jgetObj (processAudioResult conf audio.length) "duration" =
        .num ((audio.length : ℚ) / 16000) ∧
      jgetObj (processAudioResult conf audio.length) "transcription" =
        .str (String.intercalate " " (segs.map segTextOf)) := by
  refine ⟨rfl,
    mkSegments audio.length (max 1 (audio.length / 8000)) conf,
    rfl, ?_, rfl, rfl, rfl⟩
  simp [mkSegments]

/-- Every outcome of the worker's dispatch chain populates exactly one
of the result/error variables: each success arm sets result and leaves
error None, each exception arm and the unknown-operation arm set error
and leave result None. -/
theorem dispatchStep_envelope (env : WorkerEnv) (conf randf : Nat → ℚ)
    (p : MockGAMAProcessor) (operation data : JVal) :
    ((dispatchStep env conf randf p operation data).result.isSome ∧
      (dispatchStep env conf randf p operation data).error = none) ∨
    ((dispatchStep env conf randf p operation data).result = none ∧
      (dispatchStep env conf randf p operation data).error.isSome) := by
  unfold dispatchStep
  repeat' split
  all_goals simp

/-- Claim C4: every response line the worker emits carries the id of the
request it answers and exactly one of result/error non-null: the first
conjunct is the invariant over every emitted response of any run, the
second identifies the emitted response's id with the request's id
field. -/
theorem worker_response_envelope :
    (∀ env conf randf p lines r, r ∈ (runLoop env conf randf p lines).stdout →
      (r.result.isSome ∧ r.error = none) ∨ (r.result = none ∧ r.error.isSome)) ∧
    (∀ env conf randf p fields r,
      (runLoop env conf randf p [.parsed (.obj fields)]).stdout = [r] →
      r.id = jget fields "id" .null) := by
  constructor
  · intro env conf randf p lines
    induction lines generalizing p with
    | nil => intro r hr; simp [runLoop] at hr
    | cons line rest ih =>
      intro r hr
      cases line with
      | invalid raw =>
        simp only [runLoop] at hr
        exact ih p r hr
      | parsed v =>
        cases v with
        | obj fields =>
          simp only [runLoop] at hr
          split at hr
          · simp at hr
          · simp only [List.mem_cons] at hr
            rcases hr with h | h
            · subst h
              simpa using dispatchStep_envelope env conf randf p
                (jget fields "operation" .null) (jget fields "data" (.obj []))
            · exact ih _ r h
        | null => simp [runLoop] at hr
        | bool b => simp [runLoop] at hr
        | num q => simp [runLoop] at hr
        | str s => simp [runLoop] at hr
        | arr l => simp [runLoop] at hr
  · intro env conf randf p fields r hr
    simp only [runLoop] at hr
    split at hr
    · simp at hr
    · simp only [List.cons.injEq, and_true] at hr
      subst hr
      rfl

/-- Witness for C4: running the worker on the single ping request with
id 1 emits exactly one response; it satisfies the envelope invariant
and carries the request's id. -/
theorem worker_response_envelope_witness :
    (((RpcResponse.mk (.num 1)
          (some (.obj [("status", .str "ok"), ("device", .str "cpu"),
                       ("memory_available", .num 0)])) none).result.isSome ∧
      (RpcResponse.mk (.num 1)
          (some (.obj [("status", .str "ok"), ("device", .str "cpu"),
                       ("memory_available", .num 0)])) none).error = none) ∨
     ((RpcResponse.mk (.num 1)
          (some (.obj [("status", .str "ok"), ("device", .str "cpu"),
                       ("memory_available", .num 0)])) none).result = none ∧
      (RpcResponse.mk (.num 1)
          (some (.obj [("status", .str "ok"), ("device", .str "cpu"),
                       ("memory_available", .num 0)])) none).error.isSome)) ∧
    (RpcResponse.mk (.num 1)
        (some (.obj [("status", .str "ok"), ("device", .str "cpu"),
                     ("memory_available", .num 0)])) none).id =
      jget [("id", .num 1), ("operation", .str "ping")] "id" .null :=
  ⟨worker_response_envelope.1 ⟨false, "facebook/gama-7b", "cpu", "8bit"⟩
      (fun _ => 0) (fun _ => 0)
      (MockGAMAProcessor.init false (.str "facebook/gama-7b") (.str "cpu") (.str "8bit"))
      [.parsed (.obj [("id", .num 1), ("operation", .str "ping")])]
      (RpcResponse.mk (.num 1)
        (some (.obj [("status", .str "ok"), ("device", .str "cpu"),
                     ("memory_available", .num 0)])) none)
      (List.Mem.head _),
   worker_response_envelope.2 ⟨false, "facebook/gama-7b", "cpu", "8bit"⟩
      (fun _ => 0) (fun _ => 0)
      (MockGAMAProcessor.init false (.str "facebook/gama-7b") (.str "cpu") (.str "8bit"))
      [("id", .num 1), ("operation", .str "ping")]
      (RpcResponse.mk (.num 1)
        (some (.obj [("status", .str "ok"), ("device", .str "cpu"),
                     ("memory_available", .num 0)])) none)
      rfl⟩
